import Mathlib

/-
  Verification development for the alert-triage lambda
  (src/lambdafunctionactiontype.py).  The Model Request Adapter,
  Response Extractor and per-alert pipeline driver are embedded as
  executable Lean functions; Python dynamic values are modelled by a
  JSON value type, Python exceptions by `Except String`, and the
  external collaborators (inference endpoint, persistence store,
  notification topic) by oracle parameters at the boundaries the
  specification designates as external.
-/

namespace UASO

/-- JSON values as produced by Python `json.loads`: null, booleans,
numbers, strings, arrays and objects.  A number is kept as the exact
decimal `m / 10^e` (mantissa and power-of-ten exponent), which
represents every numeric literal appearing in the source exactly.
Objects keep their key/value pairs in order; lookup takes the last
binding, matching Python dict construction from JSON text. -/
inductive Json where
  | null : Json
  | bool (b : Bool) : Json
  | num (m : Int) (e : Nat) : Json
  | str (s : String) : Json
  | arr (elems : List Json) : Json
  | obj (fields : List (String × Json)) : Json

/-- Rational value denoted by the decimal pair of `Json.num`. -/
def decVal (m : Int) (e : Nat) : Rat := (m : Rat) / 10 ^ e

/-- Python `str.strip()` whitespace set (ASCII). -/
def isPySpace (c : Char) : Bool :=
  c == ' ' || c == '\t' || c == '\n' || c == '\r' || c == '\x0b' || c == '\x0c'

/-- JSON inter-token whitespace accepted by Python's json module. -/
def isJsonWS (c : Char) : Bool :=
  c == ' ' || c == '\t' || c == '\n' || c == '\r'

/-- Drop leading JSON whitespace. -/
def skipWS (cs : List Char) : List Char := cs.dropWhile isJsonWS

/-- Left strip, Python `str.lstrip()`. -/
def lstripL (l : List Char) : List Char := l.dropWhile isPySpace

/-- Right strip, Python `str.rstrip()`. -/
def rstripL (l : List Char) : List Char := (l.reverse.dropWhile isPySpace).reverse

/-- Python `str.strip()`. -/
def pyStrip (s : String) : String := ⟨rstripL (lstripL s.data)⟩

/-- Index of the first occurrence of a character, Python `str.find`
(`none` plays the role of Python's `-1`). -/
def firstIdx : List Char → Char → Option Nat
  | [], _ => none
  | c :: cs, t => if c = t then some 0 else (firstIdx cs t).map (· + 1)

/-- Index of the last occurrence of a character, Python `str.rfind`. -/
def lastIdx (l : List Char) (t : Char) : Option Nat :=
  (firstIdx l.reverse t).map (fun i => l.length - 1 - i)

/-- Python slice `s[a:b]`. -/
def sliceStr (s : String) (a b : Nat) : String := ⟨(s.data.drop a).take (b - a)⟩

/-- Boolean string-prefix test on explicit character lists. -/
def listPrefix : List Char → List Char → Bool
  | [], _ => true
  | _ :: _, [] => false
  | a :: as, b :: bs => a == b && listPrefix as bs

/-- Python `str.startswith`. -/
def strStartsWith (s p : String) : Bool := listPrefix p.data s.data

/-- Body of a JSON string literal: consume characters until the
closing quote, decoding the common escapes (accumulator is reversed). -/
def parseStrAux : List Char → List Char → Option (String × List Char)
  | acc, '"' :: rest => some (⟨acc.reverse⟩, rest)
  | acc, '\\' :: e :: rest =>
      if e = '"' then parseStrAux ('"' :: acc) rest
      else if e = '\\' then parseStrAux ('\\' :: acc) rest
      else if e = '/' then parseStrAux ('/' :: acc) rest
      else if e = 'n' then parseStrAux ('\n' :: acc) rest
      else if e = 't' then parseStrAux ('\t' :: acc) rest
      else if e = 'r' then parseStrAux ('\r' :: acc) rest
      else if e = 'b' then parseStrAux (Char.ofNat 8 :: acc) rest
      else if e = 'f' then parseStrAux (Char.ofNat 12 :: acc) rest
      else none
  | _, ['\\'] => none
  | _, [] => none
  | acc, c :: rest => parseStrAux (c :: acc) rest

/-- Leading decimal digits and the remainder of the input. -/
def parseDigits (cs : List Char) : List Char × List Char :=
  (cs.takeWhile Char.isDigit, cs.dropWhile Char.isDigit)

/-- Numeric value of a digit list. -/
def digitsToNat (ds : List Char) : Nat :=
  ds.foldl (fun n c => n * 10 + (c.toNat - 48)) 0

/-- JSON number token (optional sign, integer part, optional fraction),
as an exact decimal pair (mantissa, power-of-ten exponent). -/
def parseNum (cs : List Char) : Option ((Int × Nat) × List Char) :=
  let signed := match cs with | '-' :: r => (true, r) | _ => (false, cs)
  let (ids, cs2) := parseDigits signed.2
  if ids.isEmpty then none
  else
    let ipart : Nat := digitsToNat ids
    let fracced : Option ((Nat × Nat) × List Char) :=
      match cs2 with
      | '.' :: r =>
          let (fds, r2) := parseDigits r
          if fds.isEmpty then none
          else some ((ipart * 10 ^ fds.length + digitsToNat fds, fds.length), r2)
      | _ => some ((ipart, 0), cs2)
    fracced.map (fun p =>
      ((if signed.1 then -(p.1.1 : Int) else (p.1.1 : Int), p.1.2), p.2))

/-- A partially built enclosing JSON container. -/
inductive PFrame where
  | arrF (acc : List Json) : PFrame
  | objF (acc : List (String × Json)) (key : String) : PFrame

/-- Fuel-driven JSON parsing machine.  With `none` it parses a value at
the head of the input; with `some v` it delivers the finished value `v`
to the innermost open container on the stack (or returns it when the
stack is empty, together with the unconsumed input). -/
def pRun : Nat → List Char → List PFrame → Option Json → Option (Json × List Char)
  | 0, _, _, _ => none
  | Nat.succ f, cs, stack, none =>
    match skipWS cs with
    | '{' :: r =>
      match skipWS r with
      | '}' :: r2 => pRun f r2 stack (some (Json.obj []))
      | '"' :: r2 =>
        match parseStrAux [] r2 with
        | some (k, r3) =>
          match skipWS r3 with
          | ':' :: r4 => pRun f r4 (PFrame.objF [] k :: stack) none
          | _ => none
        | none => none
      | _ => none
    | '[' :: r =>
      match skipWS r with
      | ']' :: r2 => pRun f r2 stack (some (Json.arr []))
      | _ => pRun f r (PFrame.arrF [] :: stack) none
    | '"' :: r =>
      match parseStrAux [] r with
      | some (s, r2) => pRun f r2 stack (some (Json.str s))
      | none => none
    | 't' :: 'r' :: 'u' :: 'e' :: r => pRun f r stack (some (Json.bool true))
    | 'f' :: 'a' :: 'l' :: 's' :: 'e' :: r => pRun f r stack (some (Json.bool false))
    | 'n' :: 'u' :: 'l' :: 'l' :: r => pRun f r stack (some Json.null)
    | other =>
      match parseNum other with
      | some (q, r) => pRun f r stack (some (Json.num q.1 q.2))
      | none => none
  | Nat.succ f, cs, stack, some v =>
    match stack with
    | [] => some (v, cs)
    | PFrame.arrF acc :: st =>
      match skipWS cs with
      | ',' :: r => pRun f r (PFrame.arrF (acc ++ [v]) :: st) none
      | ']' :: r => pRun f r st (some (Json.arr (acc ++ [v])))
      | _ => none
    | PFrame.objF acc k :: st =>
      match skipWS cs with
      | ',' :: r =>
        match skipWS r with
        | '"' :: r2 =>
          match parseStrAux [] r2 with
          | some (k2, r3) =>
            match skipWS r3 with
            | ':' :: r4 => pRun f r4 (PFrame.objF (acc ++ [(k, v)]) k2 :: st) none
            | _ => none
          | none => none
        | _ => none
      | '}' :: r => pRun f r st (some (Json.obj (acc ++ [(k, v)])))
      | _ => none

/-- Python `json.loads`: parse one JSON value and reject anything but
whitespace after it.  `none` models a raised `JSONDecodeError`. -/
def jsonLoads (s : String) : Option Json :=
  match pRun (s.data.length * 2 + 8) s.data [] none with
  | some (v, rest) => if (skipWS rest).isEmpty then some v else none
  | none => none

/-- Value bound to a key in a JSON object (`none` when the key is
absent or the value is not an object).  The last binding wins, as in a
Python dict built from JSON text. -/
def getKeyD (j : Json) (k : String) : Option Json :=
  match j with
  | Json.obj kvs => (kvs.reverse.find? (fun p => p.1 == k)).map (·.2)
  | _ => none

/-- Python `k in d` on an object. -/
def keyMem (j : Json) (k : String) : Bool := (getKeyD j k).isSome

/-- The elements of `d[k]` when the key is present and its value is a
list: the guard `"k" in d and isinstance(d[k], list)` of the source. -/
def keyList (j : Json) (k : String) : Option (List Json) :=
  match getKeyD j k with
  | some (Json.arr xs) => some xs
  | _ => none

/-- Python `xs[0]` on a known list; an empty list raises `IndexError`. -/
def index0L : List Json → Except String Json
  | [] => Except.error "IndexError: list index out of range"
  | x :: _ => Except.ok x

/-- Python `v[0]` on an arbitrary value: only a list yields its first
element; every other value raises when subscripted and then probed
with `.get`. -/
def pyIndex0 : Json → Except String Json
  | Json.arr [] => Except.error "IndexError: list index out of range"
  | Json.arr (x :: _) => Except.ok x
  | _ => Except.error "TypeError: value is not subscriptable by 0"

/-- Python `d.get(k, default)`: only dicts have `.get`; any other value
raises `AttributeError`. -/
def pyDictGet (j : Json) (k : String) (d : Json) : Except String Json :=
  match j with
  | Json.obj _ => Except.ok ((getKeyD j k).getD d)
  | _ => Except.error "AttributeError: value has no attribute get"

/-- Python `json.loads` applied to a value that should be a string:
a non-string argument raises `TypeError`, an unparseable string raises
`JSONDecodeError`. -/
def pyLoads : Json → Except String Json
  | Json.str s =>
    match jsonLoads s with
    | some v => Except.ok v
    | none => Except.error "JSONDecodeError"
  | _ => Except.error "TypeError: the JSON object must be str"

/-- Stage A of the Response Extractor (source lines 185-200): recover a
JSON object from the raw response text.  A trimmed response that starts
with a brace and ends with one is parsed directly, and a failure of
that parse propagates (there is no handler around it); otherwise the
substring from the first brace to the last one is parsed inside a
handler that falls back to the empty object. -/
def stageA (raw : String) : Except String Json :=
  let st := pyStrip raw
  if (st.data.head? == some '{') && (st.data.getLast? == some '}') then
    match jsonLoads raw with
    | some v => Except.ok v
    | none => Except.error "JSONDecodeError"
  else
    match firstIdx raw.data '{', lastIdx raw.data '}' with
    | some a, some b =>
      if a < b then
        match jsonLoads (sliceStr raw a (b + 1)) with
        | some v => Except.ok v
        | none => Except.ok (Json.obj [])
      else Except.ok (Json.obj [])
    | _, _ => Except.ok (Json.obj [])

/-- Stage B of the Response Extractor (source lines 213-229):
family-specific unwrapping, tried in the order completion, content,
results, messages; the content/results/messages branches are entered as
soon as the key holds a list, and when no branch matches the Stage-A
object itself is the classification JSON.  Inner failures raise. -/
def stageB (o : Json) : Except String Json :=
  if keyMem o "completion" then
    pyLoads ((getKeyD o "completion").getD Json.null)
  else
    match keyList o "content" with
    | some xs => do
        let x0 ← index0L xs
        let t ← pyDictGet x0 "text" (Json.str "")
        pyLoads t
    | none =>
      match keyList o "results" with
      | some xs => do
          let x0 ← index0L xs
          let t ← pyDictGet x0 "outputText" (Json.str "")
          pyLoads t
      | none =>
        match keyList o "messages" with
        | some xs => do
            let m0 ← index0L xs
            let cv ← pyDictGet m0 "content" (Json.arr [Json.obj []])
            let c0 ← pyIndex0 cv
            let t ← pyDictGet c0 "text" (Json.str "")
            pyLoads t
        | none => Except.ok o

/-- The normalized classification output.  The fields carry whatever
JSON values the model returned (the source is dynamically typed). -/
structure ClassificationRecord where
  summary : Json
  is_real_threat : Json
  action_type : Json
  ai_handling_message : Json
  human_guidance_message : Json

/-- All-default record produced when extraction finds no usable keys
(source lines 233-237 with an empty `parsed_content`). -/
def defaultRecord : ClassificationRecord where
  summary := Json.str "No AI summary generated."
  is_real_threat := Json.bool false
  action_type := Json.str "UNKNOWN"
  ai_handling_message := Json.str ""
  human_guidance_message := Json.str ""

/-- Field extraction from the recovered object (source lines 233-237):
`.get` with the documented defaults; a non-dict value raises. -/
def extractFields (pc : Json) : Except String ClassificationRecord :=
  match pc with
  | Json.obj _ => Except.ok
      { summary := (getKeyD pc "summary").getD (Json.str "No AI summary generated.")
        is_real_threat := (getKeyD pc "is_real_threat").getD (Json.bool false)
        action_type := (getKeyD pc "action_type").getD (Json.str "UNKNOWN")
        ai_handling_message := (getKeyD pc "ai_handling_message").getD (Json.str "")
        human_guidance_message := (getKeyD pc "human_guidance_message").getD (Json.str "") }
  | _ => Except.error "AttributeError: value has no attribute get"

/-- The whole Response Extractor on a raw response string; an error is
an exception escaping to the per-alert handler of source line 246. -/
def extractRecord (raw : String) : Except String ClassificationRecord := do
  let o ← stageA raw
  let pc ← stageB o
  extractFields pc

/-- Metadata stored alongside the record: either full model metadata
(source lines 240-244) or the error dict of line 248. -/
inductive InferenceMetadata where
  | success (model timestamp rawResponse : String) : InferenceMetadata
  | failure (error : String) : InferenceMetadata

/-- Defaults installed before the inference attempt (source lines
164-169); they survive whenever the attempt raises. -/
def bedrockFailureRecord : ClassificationRecord where
  summary := Json.str "AI analysis unavailable at this time."
  is_real_threat := Json.bool false
  action_type := Json.str "ERROR_BEDROCK_FAILED"
  ai_handling_message := Json.str ""
  human_guidance_message := Json.str ""

/-- The try/except of source lines 172-248 around invocation and
extraction: an invocation failure or any exception during extraction
leaves the failure-default record and an error-only metadata dict;
success installs the extracted record and full metadata. -/
def finalizeInference (modelId timestamp : String)
    (invokeResult : Except String String) :
    ClassificationRecord × InferenceMetadata :=
  match invokeResult with
  | Except.error e => (bedrockFailureRecord, InferenceMetadata.failure e)
  | Except.ok raw =>
    match extractRecord raw with
    | Except.error e => (bedrockFailureRecord, InferenceMetadata.failure e)
    | Except.ok rec => (rec, InferenceMetadata.success modelId timestamp raw)

/-- The Model Request Adapter (source lines 107-161): prefix dispatch
over model families, first match wins, with a chat-style fallback. -/
def buildBedrockBody (modelId promptText : String) : Json :=
  if strStartsWith modelId "anthropic.claude-3" then
    Json.obj
      [ ("anthropic_version", Json.str "bedrock-2023-05-31"),
        ("messages", Json.arr
          [Json.obj
            [ ("role", Json.str "user"),
              ("content", Json.arr
                [Json.obj [("type", Json.str "text"), ("text", Json.str promptText)]]) ]]),
        ("max_tokens", Json.num 500 0),
        ("temperature", Json.num 2 1),
        ("top_p", Json.num 9 1) ]
  else if strStartsWith modelId "anthropic.claude-v2" ||
      strStartsWith modelId "anthropic.claude-instant" then
    Json.obj
      [ ("prompt", Json.str ("\n\nHuman: " ++ promptText ++ "\n\nAssistant:")),
        ("max_tokens_to_sample", Json.num 500 0),
        ("temperature", Json.num 2 1),
        ("top_p", Json.num 9 1) ]
  else if strStartsWith modelId "amazon.titan-text" then
    Json.obj
      [ ("inputText", Json.str promptText),
        ("textGenerationConfig", Json.obj
          [ ("maxTokenCount", Json.num 500 0),
            ("temperature", Json.num 2 1),
            ("topP", Json.num 9 1) ]) ]
  else if strStartsWith modelId "us.amazon.nova-lite" then
    Json.obj
      [ ("messages", Json.arr
          [Json.obj
            [ ("role", Json.str "user"),
              ("content", Json.arr [Json.obj [("text", Json.str promptText)]]) ]]),
        ("inferenceConfig", Json.obj
          [ ("maxTokens", Json.num 150 0),
            ("temperature", Json.num 7 1),
            ("topP", Json.num 9 1) ]) ]
  else
    Json.obj
      [ ("messages", Json.arr
          [Json.obj
            [ ("role", Json.str "user"),
              ("content", Json.arr
                [Json.obj [("type", Json.str "text"), ("text", Json.str promptText)]]) ]]),
        ("inferenceConfig", Json.obj
          [ ("maxTokens", Json.num 500 0),
            ("temperature", Json.num 2 1),
            ("topP", Json.num 9 1) ]) ]

/-- Top-level keys of a request payload, in construction order. -/
def topKeys : Json → List String
  | Json.obj kvs => kvs.map (·.1)
  | _ => []

/-- The text of the first content block of the first message of a
chat-style payload. -/
def msgContentText (b : Json) : Option Json :=
  match getKeyD b "messages" with
  | some (Json.arr (m :: _)) =>
    match getKeyD m "content" with
    | some (Json.arr (c :: _)) => getKeyD c "text"
    | _ => none
  | _ => none

/-- The maximum-token setting of a request payload, wherever the owning
family keeps it. -/
def maxTokensOf (b : Json) : Option Json :=
  (getKeyD b "max_tokens").orElse fun _ =>
  (getKeyD b "max_tokens_to_sample").orElse fun _ =>
  (match getKeyD b "textGenerationConfig" with
   | some c => getKeyD c "maxTokenCount"
   | none => none).orElse fun _ =>
  (match getKeyD b "inferenceConfig" with
   | some c => getKeyD c "maxTokens"
   | none => none)

/-- The temperature setting of a request payload, wherever the owning
family keeps it. -/
def temperatureOf (b : Json) : Option Json :=
  (getKeyD b "temperature").orElse fun _ =>
  (match getKeyD b "textGenerationConfig" with
   | some c => getKeyD c "temperature"
   | none => none).orElse fun _ =>
  (match getKeyD b "inferenceConfig" with
   | some c => getKeyD c "temperature"
   | none => none)

/-- JSON string-literal escaping for one character (used to build the
concrete wrapped-response test inputs). -/
def escJsonChar (c : Char) : List Char :=
  if c = '"' then ['\\', '"']
  else if c = '\\' then ['\\', '\\']
  else if c = '\n' then ['\\', 'n']
  else if c = '\t' then ['\\', 't']
  else if c = '\r' then ['\\', 'r']
  else [c]

/-- A JSON string literal denoting `s`. -/
def jsonQuote (s : String) : String :=
  ⟨'"' :: s.data.foldr (fun c acc => escJsonChar c ++ acc) ['"']⟩

/-- One alert as assembled at source lines 47-53 (identifier and
received-at timestamp are environment-generated inputs). -/
structure Alert where
  alertID : String
  severity : Json
  source : Json
  message : Json
  receivedAt : String

/-- Alert construction from a parsed input line (source lines 47-53):
`.get` with the documented defaults; a non-dict line value raises. -/
def mkAlert (aid rts : String) (ad : Json) : Except String Alert := do
  let sev ← pyDictGet ad "Severity" (Json.str "Low")
  let src ← pyDictGet ad "Source" (Json.str "Unknown")
  let msg ← pyDictGet ad "Message" (Json.str "")
  Except.ok { alertID := aid, severity := sev, source := src, message := msg, receivedAt := rts }

/-- The alert that `mkAlert` produces from a parsed object line (the
defaults of source lines 49-51 applied to an object value). -/
def alertObj (aid rts : String) (kv : List (String × Json)) : Alert where
  alertID := aid
  severity := (getKeyD (Json.obj kv) "Severity").getD (Json.str "Low")
  source := (getKeyD (Json.obj kv) "Source").getD (Json.str "Unknown")
  message := (getKeyD (Json.obj kv) "Message").getD (Json.str "")
  receivedAt := rts

/-- The item written to the persistence store (source lines 252-272). -/
structure StoredItem where
  alertID : String
  receivedAt : String
  severity : Json
  source : Json
  message : Json
  aiSummary : Json
  isRealThreat : Json
  actionType : Json
  aiHandlingMessage : Json
  humanGuidanceMessage : Json
  status : String
  processedBy : String
  environment : String
  modelUsed : String
  inferenceTimestamp : Option String
  metadata : InferenceMetadata

/-- Assemble the persisted item (source lines 252-272);
`ModelUsed`/`InferenceTimestamp` read the metadata dict with the
defaults of lines 269-270. -/
def storedItemOf (a : Alert) (rec : ClassificationRecord)
    (meta : InferenceMetadata) (env : String) : StoredItem where
  alertID := a.alertID
  receivedAt := a.receivedAt
  severity := a.severity
  source := a.source
  message := a.message
  aiSummary := rec.summary
  isRealThreat := rec.is_real_threat
  actionType := rec.action_type
  aiHandlingMessage := rec.ai_handling_message
  humanGuidanceMessage := rec.human_guidance_message
  status := "Open"
  processedBy := "UASO_Lambda"
  environment := env
  modelUsed := match meta with
    | InferenceMetadata.success m _ _ => m
    | InferenceMetadata.failure _ => "unknown"
  inferenceTimestamp := match meta with
    | InferenceMetadata.success _ t _ => some t
    | InferenceMetadata.failure _ => none
  metadata := meta

/-- Which of the five subject/body templates of source lines 274-294 a
message uses. -/
inductive SnsTemplate where
  | aiHandled : SnsTemplate
  | humanRequired : SnsTemplate
  | falsePositive : SnsTemplate
  | nonAddressable : SnsTemplate
  | unknownOrError : SnsTemplate

/-- Python `action_type == "X"`: true only for the equal string. -/
def isStrEq (j : Json) (x : String) : Bool :=
  match j with
  | Json.str s => s == x
  | _ => false

/-- Template dispatch of source lines 278-294. -/
def snsTemplateOf (action : Json) : SnsTemplate :=
  if isStrEq action "AI_HANDLED" then SnsTemplate.aiHandled
  else if isStrEq action "HUMAN_REQUIRED" then SnsTemplate.humanRequired
  else if isStrEq action "FALSE_POSITIVE" then SnsTemplate.falsePositive
  else if isStrEq action "NON_ADDRESSABLE" then SnsTemplate.nonAddressable
  else SnsTemplate.unknownOrError

/-- A published notification, collapsed to the inputs that determine
the formatted subject and body (string templating of lines 274-296 is
the out-of-scope transport boundary). -/
structure SnsMessage where
  template : SnsTemplate
  severity : Json
  source : Json
  summary : Json
  handling : Json
  guidance : Json

/-- Build the notification for a finalized record (lines 274-296). -/
def snsMessageOf (a : Alert) (rec : ClassificationRecord) : SnsMessage where
  template := snsTemplateOf rec.action_type
  severity := a.severity
  source := a.source
  summary := rec.summary
  handling := rec.ai_handling_message
  guidance := rec.human_guidance_message

/-- An operator-visible log line (only the `logger.error` calls that
surface failures are modelled; informational logging is out of scope). -/
inductive LogEntry where
  | error (message : String) : LogEntry
  | info (message : String) : LogEntry

/-- The entry appended to the final response body for a fully processed
alert (source lines 305-310). -/
structure AlertSummary where
  alertID : String
  summary : Json
  action_type : Json
  is_real_threat : Json

/-- Steps 2 and 3 of the per-alert pipeline (source lines 250-310):
the persistence write, then the notification publish, then the summary.
The effects already performed survive a later failure; a collaborator
failure propagates (as the `Except.error`) out of the per-alert
pipeline to the batch loop's handler. -/
def collabPhase (a : Alert) (rec : ClassificationRecord)
    (meta : InferenceMetadata) (env : String)
    (persistRes publishRes : Except String Unit) :
    List StoredItem × List SnsMessage × Except String AlertSummary :=
  match persistRes with
  | Except.error e => ([], [], Except.error e)
  | Except.ok _ =>
    let item := storedItemOf a rec meta env
    match publishRes with
    | Except.error e => ([item], [], Except.error e)
    | Except.ok _ =>
      ([item], [snsMessageOf a rec],
       Except.ok { alertID := a.alertID, summary := rec.summary,
                   action_type := rec.action_type, is_real_threat := rec.is_real_threat })

/-- Observable outcome of processing one input line. -/
structure LineOutcome where
  stored : List StoredItem
  sent : List SnsMessage
  logs : List LogEntry
  summary : Option AlertSummary

/-- Processing of one line of the alert file (source lines 42-315).
The request body is built by `buildBedrockBody`; the inference call is
the external boundary, so its outcome (raw response or raised error)
is an input.  A malformed line is skipped with an error log (lines
312-313); any other exception escaping the per-alert pipeline -- a
non-dict line value, or a collaborator failure -- is logged by the
catch-all handler (lines 314-315) and the loop continues. -/
def processLine (modelId aid rts its env : String) (line : String)
    (invokeRes : Except String String)
    (persistRes publishRes : Except String Unit) : LineOutcome :=
  match jsonLoads (pyStrip line) with
  | none =>
    { stored := [], sent := [],
      logs := [LogEntry.error ("Skipping malformed JSON line: " ++ line)],
      summary := none }
  | some ad =>
    match mkAlert aid rts ad with
    | Except.error e =>
      { stored := [], sent := [],
        logs := [LogEntry.error ("An unexpected error occurred: " ++ e)],
        summary := none }
    | Except.ok a =>
      let rm := finalizeInference modelId its invokeRes
      let infLogs : List LogEntry :=
        match rm.2 with
        | InferenceMetadata.failure e =>
            [LogEntry.error ("Bedrock analysis failed for AlertID " ++ a.alertID ++ ": " ++ e)]
        | InferenceMetadata.success _ _ _ => []
      let cp := collabPhase a rm.1 rm.2 env persistRes publishRes
      match cp.2.2 with
      | Except.error e =>
        { stored := cp.1, sent := cp.2.1,
          logs := infLogs ++ [LogEntry.error ("An unexpected error occurred: " ++ e)],
          summary := none }
      | Except.ok sm =>
        { stored := cp.1, sent := cp.2.1,
          logs := infLogs ++ [LogEntry.info ("Processed alert " ++ a.alertID)],
          summary := some sm }

/-- Result of one lambda invocation over the whole alert file. -/
structure BatchResult where
  stored : List StoredItem
  sent : List SnsMessage
  logs : List LogEntry
  summaries : List AlertSummary
  statusCode : Nat

/-- The batch loop (source lines 41-315): lines processed strictly in
order, each line's effects appended; identifiers, timestamps and the
three collaborator outcomes are indexed oracles. -/
def runLines (modelId env : String) (ids rts its : Nat → String)
    (invokeO : Nat → Except String String)
    (persistO publishO : Nat → Except String Unit) :
    Nat → List String → LineOutcome
  | _, [] => { stored := [], sent := [], logs := [], summary := none }
  | i, l :: ls =>
    let o := processLine modelId (ids i) (rts i) (its i) env l (invokeO i) (persistO i) (publishO i)
    let rest := runLines modelId env ids rts its invokeO persistO publishO (i + 1) ls
    { stored := o.stored ++ rest.stored, sent := o.sent ++ rest.sent,
      logs := o.logs ++ rest.logs, summary := none }

/-- The list of per-alert summaries accumulated by the loop
(`processed_alerts_summary` of the source). -/
def runSummaries (modelId env : String) (ids rts its : Nat → String)
    (invokeO : Nat → Except String String)
    (persistO publishO : Nat → Except String Unit) :
    Nat → List String → List AlertSummary
  | _, [] => []
  | i, l :: ls =>
    let o := processLine modelId (ids i) (rts i) (its i) env l (invokeO i) (persistO i) (publishO i)
    o.summary.toList ++
      runSummaries modelId env ids rts its invokeO persistO publishO (i + 1) ls

/-- `lambda_handler` after the alert file has been read into lines
(the file lookup of lines 32-37 is the hosting environment's
boundary): the loop runs to completion and the handler returns 200. -/
def lambdaHandler (modelId env : String) (ids rts its : Nat → String)
    (lines : List String)
    (invokeO : Nat → Except String String)
    (persistO publishO : Nat → Except String Unit) : BatchResult :=
  let agg := runLines modelId env ids rts its invokeO persistO publishO 0 lines
  { stored := agg.stored, sent := agg.sent, logs := agg.logs,
    summaries := runSummaries modelId env ids rts its invokeO persistO publishO 0 lines,
    statusCode := 200 }

/-- Modelled from the spec: the defensive inner classification parse of
§4.4 steps 1-4, whose failure falls back to all-default fields (the
empty structured result) instead of raising. -/
def specClassify (s : String) : Json := (jsonLoads s).getD (Json.obj [])

/-- Modelled from the spec: matching for Stage-B shapes 2 and 3 -- the
key must hold a non-empty sequence whose first element has the expected
text field. -/
def specSeqText (o : Json) (k field : String) : Option String :=
  match getKeyD o k with
  | some (Json.arr (x :: _)) =>
    match getKeyD x field with
    | some (Json.str t) => some t
    | _ => none
  | _ => none

/-- Modelled from the spec: matching for Stage-B shape 4 -- `messages`
holds a non-empty sequence whose first element has a `content` sequence
whose first element has a `text` field. -/
def specMsgText (o : Json) : Option String :=
  match getKeyD o "messages" with
  | some (Json.arr (m :: _)) =>
    match getKeyD m "content" with
    | some (Json.arr (c :: _)) =>
      match getKeyD c "text" with
      | some (Json.str t) => some t
      | _ => none
    | _ => none
  | _ => none

/-- Modelled from the spec (§4.4 Stage B as the claim reads it): the
four family shapes tried in order, each falling through to the next
whenever unmatched, and the Stage-A object itself used when none
match. -/
def stageBSpec (o : Json) : Json :=
  match getKeyD o "completion" with
  | some (Json.str s) => specClassify s
  | _ =>
    match specSeqText o "content" "text" with
    | some t => specClassify t
    | none =>
      match specSeqText o "results" "outputText" with
      | some t => specClassify t
      | none =>
        match specMsgText o with
        | some t => specClassify t
        | none => o

/-- The inner text that the code's matched Stage-B branch feeds to
`json.loads`, as a relation describing each of the four family shapes
(with the code's own match guards and first-element access). -/
def familyInnerText (o : Json) (s : String) : Prop :=
  (getKeyD o "completion" = some (Json.str s)) ∨
  (keyMem o "completion" = false ∧
    ∃ x xs, keyList o "content" = some (x :: xs) ∧
      pyDictGet x "text" (Json.str "") = Except.ok (Json.str s)) ∨
  (keyMem o "completion" = false ∧ keyList o "content" = none ∧
    ∃ x xs, keyList o "results" = some (x :: xs) ∧
      pyDictGet x "outputText" (Json.str "") = Except.ok (Json.str s)) ∨
  (keyMem o "completion" = false ∧ keyList o "content" = none ∧
   keyList o "results" = none ∧
    ∃ m ms, keyList o "messages" = some (m :: ms) ∧
    ∃ cv, pyDictGet m "content" (Json.arr [Json.obj []]) = Except.ok cv ∧
    ∃ c, pyIndex0 cv = Except.ok c ∧
      pyDictGet c "text" (Json.str "") = Except.ok (Json.str s))

/-- The classification text used by the round-trip property: the
five-field JSON object of the specification's test vector. -/
def classifyStr : String :=
  "\x7b\"summary\":\"s\",\"is_real_threat\":true,\"action_type\":\"AI_HANDLED\",\"ai_handling_message\":\"m\",\"human_guidance_message\":\"\"\x7d"

/-- The record the round-trip vector denotes. -/
def classifyRec : ClassificationRecord where
  summary := Json.str "s"
  is_real_threat := Json.bool true
  action_type := Json.str "AI_HANDLED"
  ai_handling_message := Json.str "m"
  human_guidance_message := Json.str ""

/-- The legacy-Claude envelope around the test vector. -/
def envCompletion : String := "\x7b\"completion\": " ++ jsonQuote classifyStr ++ "\x7d"

/-- The Claude-3 envelope around the test vector. -/
def envContent : String :=
  "\x7b\"content\": [\x7b\"text\": " ++ jsonQuote classifyStr ++ "\x7d]\x7d"

/-- The Titan envelope around the test vector. -/
def envResults : String :=
  "\x7b\"results\": [\x7b\"outputText\": " ++ jsonQuote classifyStr ++ "\x7d]\x7d"

/-- The Nova / chat envelope around the test vector. -/
def envMessages : String :=
  "\x7b\"messages\": [\x7b\"content\": [\x7b\"text\": " ++ jsonQuote classifyStr ++ "\x7d]\x7d]\x7d"

section Lemmas

/-- Membership survives `dropWhile`. -/
theorem mem_of_dropWhile {α : Type} {P : α → Bool} {a : α} :
    ∀ {l : List α}, a ∈ l.dropWhile P → a ∈ l := by
  intro l
  induction l with
  | nil => intro h; simpa using h
  | cons c t ih =>
    intro h
    rw [List.dropWhile_cons] at h
    by_cases hc : P c = true
    · simp only [hc, if_true] at h
      exact List.mem_cons_of_mem c (ih h)
    · simp only [hc, if_false] at h
      exact h

/-- `dropWhile` over an append whose left part has a failing element. -/
theorem dropWhile_append_of_exists {α : Type} {P : α → Bool} {l₁ : List α}
    (l₂ : List α) (h : ∃ c ∈ l₁, P c = false) :
    (l₁ ++ l₂).dropWhile P = l₁.dropWhile P ++ l₂ := by
  induction l₁ with
  | nil => simp at h
  | cons c t ih =>
    rw [List.cons_append, List.dropWhile_cons, List.dropWhile_cons]
    by_cases hc : P c = true
    · obtain ⟨d, hd, hPd⟩ := h
      rcases List.mem_cons.mp hd with rfl | hdt
      · rw [hc] at hPd; simp at hPd
      · simp only [hc, if_true]
        exact ih ⟨d, hdt, hPd⟩
    · simp [hc]

/-- `dropWhile` on a list with a failing element yields that element
(or an earlier one) at the head. -/
theorem dropWhile_cons_of_exists {α : Type} {P : α → Bool} {l : List α}
    (h : ∃ c ∈ l, P c = false) :
    ∃ d ds, l.dropWhile P = d :: ds ∧ d ∈ l ∧ P d = false := by
  induction l with
  | nil => simp at h
  | cons c t ih =>
    by_cases hc : P c = true
    · obtain ⟨d, hd, hPd⟩ := h
      rcases List.mem_cons.mp hd with rfl | hdt
      · rw [hc] at hPd; simp at hPd
      · obtain ⟨d', ds', heq, hmem, hPd'⟩ := ih ⟨d, hdt, hPd⟩
        exact ⟨d', ds', by rw [List.dropWhile_cons]; simp [hc, heq],
               List.mem_cons_of_mem c hmem, hPd'⟩
    · refine ⟨c, t, ?_, List.mem_cons_self c t, Bool.eq_false_iff.mpr hc⟩
      rw [List.dropWhile_cons]
      simp [hc]

/-- `dropWhile` cannot consume a trailing element that fails the
predicate. -/
theorem dropWhile_snoc_of_false {α : Type} {P : α → Bool} {c : α}
    (hc : P c = false) :
    ∀ l : List α, ∃ pfx, (l ++ [c]).dropWhile P = pfx ++ [c] := by
  intro l
  induction l with
  | nil => exact ⟨[], by simp [List.dropWhile_cons, hc]⟩
  | cons x t ih =>
    by_cases hx : P x = true
    · obtain ⟨pfx, hp⟩ := ih
      exact ⟨pfx, by rw [List.cons_append, List.dropWhile_cons]; simp [hx, hp]⟩
    · exact ⟨x :: t, by rw [List.cons_append, List.dropWhile_cons]; simp [hx]⟩

/-- A character that does not occur is not found. -/
theorem firstIdx_eq_none {c : Char} : ∀ {l : List Char}, c ∉ l → firstIdx l c = none := by
  intro l
  induction l with
  | nil => intro _; rfl
  | cons d t ih =>
    intro h
    have hdc : ¬(d = c) := fun e => h (e ▸ List.mem_cons_self d t)
    have hct : c ∉ t := fun e => h (List.mem_cons_of_mem d e)
    simp [firstIdx, hdc, ih hct]

/-- Finding in an append whose left part misses the character. -/
theorem firstIdx_append_of_not_mem {c : Char} {l₁ : List Char} (l₂ : List Char)
    (h : c ∉ l₁) :
    firstIdx (l₁ ++ l₂) c = (firstIdx l₂ c).map (· + l₁.length) := by
  induction l₁ with
  | nil =>
    simp only [List.nil_append, List.length_nil]
    cases firstIdx l₂ c <;> simp
  | cons d t ih =>
    have hdc : ¬(d = c) := fun e => h (e ▸ List.mem_cons_self d t)
    have hct : c ∉ t := fun e => h (List.mem_cons_of_mem d e)
    rw [List.cons_append]
    simp only [firstIdx, hdc, if_false, ih hct, List.length_cons]
    cases firstIdx l₂ c with
    | none => rfl
    | some i => simp; omega

/-- Membership survives a right strip. -/
theorem mem_of_rstripL {c : Char} {l : List Char} (h : c ∈ rstripL l) : c ∈ l := by
  unfold rstripL at h
  rw [List.mem_reverse] at h
  exact List.mem_reverse.mp (mem_of_dropWhile h)

/-- The head of a stripped string occurs in the string. -/
theorem pyStrip_head_mem {s : String} {c : Char}
    (h : (pyStrip s).data.head? = some c) : c ∈ s.data := by
  have hmem : c ∈ (pyStrip s).data := by
    cases hd : (pyStrip s).data with
    | nil => rw [hd] at h; simp at h
    | cons x t =>
      rw [hd] at h
      simp at h
      rw [← h]
      exact List.mem_cons_self x t
  exact mem_of_dropWhile (mem_of_rstripL hmem)

/-- A right strip keeps a non-whitespace head in place. -/
theorem rstripL_cons_of_head {x : Char} (hx : isPySpace x = false) (xs : List Char) :
    ∃ t, rstripL (x :: xs) = x :: t := by
  unfold rstripL
  rw [List.reverse_cons]
  obtain ⟨pfx, hp⟩ := dropWhile_snoc_of_false hx xs.reverse
  exact ⟨pfx.reverse, by rw [hp, List.reverse_append, List.reverse_singleton]; rfl⟩

/-- Stripping is the identity when both ends are non-whitespace. -/
theorem pyStrip_eq_self {s : String} {a b : Char}
    (h1 : s.data.head? = some a) (ha : isPySpace a = false)
    (h2 : s.data.getLast? = some b) (hb : isPySpace b = false) :
    pyStrip s = s := by
  have hl : lstripL s.data = s.data := by
    cases hd : s.data with
    | nil => rfl
    | cons x t =>
      rw [hd] at h1
      simp at h1
      unfold lstripL
      rw [List.dropWhile_cons, h1, ha]
      simp
  have hr : rstripL s.data = s.data := by
    have hrev : s.data.reverse.head? = some b := by
      rw [List.head?_reverse]; exact h2
    cases hd : s.data.reverse with
    | nil => rw [hd] at hrev; simp at hrev
    | cons y t =>
      rw [hd] at hrev
      simp at hrev
      unfold rstripL
      rw [hd, List.dropWhile_cons, hrev, hb]
      simp only [Bool.false_eq_true, if_false]
      rw [← List.reverse_reverse s.data, hd, hrev]
  show String.mk (rstripL (lstripL s.data)) = s
  rw [hl, hr]

/-- A prefix match pins down the head of the matched string. -/
theorem listPrefix_head {a : Char} {as l : List Char}
    (h : listPrefix (a :: as) l = true) : ∃ t, l = a :: t := by
  cases l with
  | nil => simp [listPrefix] at h
  | cons b bs =>
    simp only [listPrefix, Bool.and_eq_true, beq_iff_eq] at h
    exact ⟨bs, by rw [h.1]⟩

/-- Two candidate prefixes with different first characters cannot both
match. -/
theorem strStartsWith_head_ne {mid p q : String} {a b : Char}
    (hpa : p.data.head? = some a) (hqb : q.data.head? = some b) (hab : ¬(a = b))
    (h : strStartsWith mid p = true) : strStartsWith mid q = false := by
  obtain ⟨pt, hpt⟩ : ∃ pt, p.data = a :: pt := by
    cases hd : p.data with
    | nil => rw [hd] at hpa; simp at hpa
    | cons x t =>
      rw [hd] at hpa
      simp at hpa
      exact ⟨t, by rw [hpa]⟩
  obtain ⟨qt, hqt⟩ : ∃ qt, q.data = b :: qt := by
    cases hd : q.data with
    | nil => rw [hd] at hqb; simp at hqb
    | cons x t =>
      rw [hd] at hqb
      simp at hqb
      exact ⟨t, by rw [hqb]⟩
  unfold strStartsWith at h ⊢
  rw [hpt] at h
  obtain ⟨mt, hmt⟩ := listPrefix_head h
  rw [hqt, hmt]
  show (b == a && listPrefix qt mt) = false
  have hba : (b == a) = false := beq_eq_false_iff_ne.mpr (fun e => hab e.symm)
  rw [hba, Bool.false_and]

/-- Stage A parses a braced, well-formed response directly. -/
theorem stageA_direct {s : String} {v : Json}
    (h1 : s.data.head? = some '{') (h2 : s.data.getLast? = some '}')
    (hp : jsonLoads s = some v) : stageA s = Except.ok v := by
  unfold stageA
  rw [pyStrip_eq_self h1 rfl h2 rfl]
  simp only [h1, h2, beq_self_eq_true, Bool.and_self, if_true, hp]

/-- When a family branch matches and reaches its inner parse, Stage B
is exactly `json.loads` of the matched inner string. -/
theorem stageB_of_familyInnerText {o : Json} {s : String}
    (hf : familyInnerText o s) : stageB o = pyLoads (Json.str s) := by
  rcases hf with h | ⟨h1, x, xs, h2, h3⟩ | ⟨h1, h2, x, xs, h3, h4⟩ |
    ⟨h1, h2, h3, m, ms, h4, cv, h5, c, h6, h7⟩
  · have hk : keyMem o "completion" = true := by
      unfold keyMem
      rw [h]
      rfl
    unfold stageB
    rw [hk, h]
    rfl
  · unfold stageB
    rw [h1, h2]
    show (index0L (x :: xs) >>= fun x0 =>
      pyDictGet x0 "text" (Json.str "") >>= fun t => pyLoads t) = _
    show (pyDictGet x "text" (Json.str "") >>= fun t => pyLoads t) = _
    rw [h3]
    rfl
  · unfold stageB
    rw [h1, h2, h3]
    show (pyDictGet x "outputText" (Json.str "") >>= fun t => pyLoads t) = _
    rw [h4]
    rfl
  · unfold stageB
    rw [h1, h2, h3, h4]
    show (pyDictGet m "content" (Json.arr [Json.obj []]) >>= fun cv0 =>
      pyIndex0 cv0 >>= fun c0 =>
      pyDictGet c0 "text" (Json.str "") >>= fun t => pyLoads t) = _
    rw [h5]
    show (pyIndex0 cv >>= fun c0 =>
      pyDictGet c0 "text" (Json.str "") >>= fun t => pyLoads t) = _
    rw [h6]
    show (pyDictGet c "text" (Json.str "") >>= fun t => pyLoads t) = _
    rw [h7]
    rfl

/-- Successful invocation and extraction installs the record and full
metadata. -/
theorem finalizeInference_ok {modelId its r : String} {rec : ClassificationRecord}
    (hr : extractRecord r = Except.ok rec) :
    finalizeInference modelId its (Except.ok r) =
      (rec, InferenceMetadata.success modelId its r) := by
  show (match extractRecord r with
    | Except.error e => (bedrockFailureRecord, InferenceMetadata.failure e)
    | Except.ok rc => (rc, InferenceMetadata.success modelId its r)) = _
  rw [hr]

/-- One line, everything succeeding: the stored item, notification and
summary are those of the extracted record. -/
theorem processLine_normal {modelId aid rts its env l r : String}
    {kv : List (String × Json)} {rec : ClassificationRecord}
    (hl : jsonLoads (pyStrip l) = some (Json.obj kv))
    (hr : extractRecord r = Except.ok rec) :
    processLine modelId aid rts its env l (Except.ok r) (Except.ok ()) (Except.ok ()) =
      { stored := [storedItemOf (alertObj aid rts kv) rec
          (InferenceMetadata.success modelId its r) env],
        sent := [snsMessageOf (alertObj aid rts kv) rec],
        logs := [LogEntry.info ("Processed alert " ++ aid)],
        summary := some ⟨aid, rec.summary, rec.action_type, rec.is_real_threat⟩ } := by
  unfold processLine
  rw [hl, finalizeInference_ok hr]
  rfl

/-- One line with a failed invocation: the failure-default record is
still persisted, notified and summarized, with an inference error
log. -/
theorem processLine_invoke_failed {modelId aid rts its env l : String}
    {kv : List (String × Json)} (e : String)
    (hl : jsonLoads (pyStrip l) = some (Json.obj kv)) :
    processLine modelId aid rts its env l (Except.error e) (Except.ok ()) (Except.ok ()) =
      { stored := [storedItemOf (alertObj aid rts kv) bedrockFailureRecord
          (InferenceMetadata.failure e) env],
        sent := [snsMessageOf (alertObj aid rts kv) bedrockFailureRecord],
        logs := [LogEntry.error ("Bedrock analysis failed for AlertID " ++ aid ++ ": " ++ e),
                 LogEntry.info ("Processed alert " ++ aid)],
        summary := some ⟨aid, bedrockFailureRecord.summary,
          bedrockFailureRecord.action_type, bedrockFailureRecord.is_real_threat⟩ } := by
  unfold processLine
  rw [hl]
  rfl

/-- One line with a failed persistence write: nothing stored or
notified, an error log, no summary. -/
theorem processLine_persist_failed {modelId aid rts its env l r : String}
    {kv : List (String × Json)} {rec : ClassificationRecord} (e : String)
    (pub : Except String Unit)
    (hl : jsonLoads (pyStrip l) = some (Json.obj kv))
    (hr : extractRecord r = Except.ok rec) :
    processLine modelId aid rts its env l (Except.ok r) (Except.error e) pub =
      { stored := [], sent := [],
        logs := [LogEntry.error ("An unexpected error occurred: " ++ e)],
        summary := none } := by
  unfold processLine
  rw [hl, finalizeInference_ok hr]
  rfl

/-- One line with a failed notification publish: the item was already
stored, then an error log, no summary. -/
theorem processLine_publish_failed {modelId aid rts its env l r : String}
    {kv : List (String × Json)} {rec : ClassificationRecord} (e : String)
    (hl : jsonLoads (pyStrip l) = some (Json.obj kv))
    (hr : extractRecord r = Except.ok rec) :
    processLine modelId aid rts its env l (Except.ok r) (Except.ok ()) (Except.error e) =
      { stored := [storedItemOf (alertObj aid rts kv) rec
          (InferenceMetadata.success modelId its r) env],
        sent := [],
        logs := [LogEntry.error ("An unexpected error occurred: " ++ e)],
        summary := none } := by
  unfold processLine
  rw [hl, finalizeInference_ok hr]
  rfl

end Lemmas

set_option maxRecDepth 200000

/-- C1: the bare round-trip vector extracts to the record with exactly
the five stated field values, and the same record is produced when the
vector is delivered inside each of the four family envelopes
(completion, content, results and messages). -/
theorem C1_extraction_roundtrip :
    extractRecord classifyStr = Except.ok classifyRec ∧
    extractRecord envCompletion = Except.ok classifyRec ∧
    extractRecord envContent = Except.ok classifyRec ∧
    extractRecord envResults = Except.ok classifyRec ∧
    extractRecord envMessages = Except.ok classifyRec :=
  ⟨rfl, rfl, rfl, rfl, rfl⟩

/-- C6: a raw response containing no curly brace at all extracts, with
no exception escaping, to the record whose every field is the
documented default (summary, threat flag, UNKNOWN action, empty
advisory messages). -/
theorem C6_no_brace_all_defaults (raw : String)
    (h1 : '{' ∉ raw.data) (h2 : '}' ∉ raw.data) :
    extractRecord raw = Except.ok defaultRecord := by
  have hA : stageA raw = Except.ok (Json.obj []) := by
    unfold stageA
    have hcond : (((pyStrip raw).data.head? == some '{') &&
        ((pyStrip raw).data.getLast? == some '}')) = false := by
      cases hh : (pyStrip raw).data.head? with
      | none => simp
      | some c =>
        have hc : c ∈ raw.data := pyStrip_head_mem hh
        have hcne : ¬(c = '{') := fun e => h1 (e ▸ hc)
        simp [hcne]
    simp only [hcond, Bool.false_eq_true, if_false]
    rw [firstIdx_eq_none h1]
  unfold extractRecord
  rw [hA]
  rfl

/-- Closed witness for C6 at a braceless concrete response. -/
theorem C6_no_brace_all_defaults_witness :
    extractRecord "no json here" = Except.ok defaultRecord :=
  C6_no_brace_all_defaults "no json here" (by decide) (by decide)

/-- C9: a raw response whose trimmed text starts with a brace and ends
with one but is not valid JSON makes the direct parse raise; the
exception escapes extraction to the per-alert handler, so the
finalized record carries the inference-failure defaults (summary
"AI analysis unavailable at this time.", action type
ERROR_BEDROCK_FAILED) with error-only metadata, and the
bracket-substring retry is never reached (the error, not its
empty-object fallback, is the outcome). -/
theorem C9_direct_parse_failure_propagates (raw modelId its : String)
    (h1 : (pyStrip raw).data.head? = some '{')
    (h2 : (pyStrip raw).data.getLast? = some '}')
    (h3 : jsonLoads raw = none) :
    stageA raw = Except.error "JSONDecodeError" ∧
    extractRecord raw = Except.error "JSONDecodeError" ∧
    finalizeInference modelId its (Except.ok raw) =
      (bedrockFailureRecord, InferenceMetadata.failure "JSONDecodeError") ∧
    bedrockFailureRecord.summary = Json.str "AI analysis unavailable at this time." ∧
    bedrockFailureRecord.action_type = Json.str "ERROR_BEDROCK_FAILED" := by
  have hA : stageA raw = Except.error "JSONDecodeError" := by
    unfold stageA
    simp only [h1, h2, beq_self_eq_true, Bool.and_self, if_true, h3]
  have hE : extractRecord raw = Except.error "JSONDecodeError" := by
    unfold extractRecord
    rw [hA]
    rfl
  refine ⟨hA, hE, ?_, rfl, rfl⟩
  simp [finalizeInference, hE]

/-- C7: a raw response made of explanatory prose (no braces of its
own, and genuinely non-whitespace before the object) around a valid
JSON object text extracts to exactly the same record as the bare
object text. -/
theorem C7_prose_wrapping_invariant (pre j post : String) (v : Json)
    (hpre1 : '{' ∉ pre.data) (hpre2 : '}' ∉ pre.data)
    (hpost1 : '{' ∉ post.data) (hpost2 : '}' ∉ post.data)
    (hnws : ∃ c ∈ pre.data, isPySpace c = false)
    (hhead : j.data.head? = some '{')
    (hlast : j.data.getLast? = some '}')
    (hparse : jsonLoads j = some v) :
    extractRecord (pre ++ j ++ post) = extractRecord j := by
  obtain ⟨jt, hjd⟩ : ∃ jt, j.data = '{' :: jt := by
    cases hd : j.data with
    | nil => rw [hd] at hhead; simp at hhead
    | cons x t =>
      rw [hd] at hhead
      simp at hhead
      exact ⟨t, by rw [hhead]⟩
  have hjlen2 : 2 ≤ j.data.length := by
    rw [hjd]
    cases jt with
    | nil => rw [hjd] at hlast; simp at hlast
    | cons y t => simp
  have hdata : (pre ++ j ++ post).data = pre.data ++ (j.data ++ post.data) := by
    rw [String.data_append, String.data_append, List.append_assoc]
  -- the strip-and-check shortcut of line 186 is not taken: the first
  -- non-whitespace character comes from the prose, not from a brace
  obtain ⟨d, ds, hds, hdmem, hdP⟩ := dropWhile_cons_of_exists hnws
  have hstrip : (pyStrip (pre ++ j ++ post)).data =
      rstripL (d :: (ds ++ (j.data ++ post.data))) := by
    show rstripL (lstripL (pre ++ j ++ post).data) = _
    rw [hdata]
    unfold lstripL
    rw [dropWhile_append_of_exists _ hnws]
    show rstripL (pre.data.dropWhile isPySpace ++ _) = _
    rw [hds, List.cons_append]
  obtain ⟨t0, ht0⟩ := rstripL_cons_of_head hdP (ds ++ (j.data ++ post.data))
  have hdne : ¬(d = '{') := fun e => hpre1 (e ▸ hdmem)
  have hcond : (((pyStrip (pre ++ j ++ post)).data.head? == some '{') &&
      ((pyStrip (pre ++ j ++ post)).data.getLast? == some '}')) = false := by
    rw [hstrip, ht0]
    simp [hdne]
  -- bracket search of lines 191-194 recovers exactly the object text
  have hfind : firstIdx (pre ++ j ++ post).data '{' = some pre.data.length := by
    rw [hdata, firstIdx_append_of_not_mem _ hpre1, hjd]
    show (firstIdx ('{' :: (jt ++ post.data)) '{').map _ = _
    simp [firstIdx]
  have hjrev : ∃ jr, j.data.reverse = '}' :: jr := by
    have hrev : j.data.reverse.head? = some '}' := by
      rw [List.head?_reverse]; exact hlast
    cases hd : j.data.reverse with
    | nil => rw [hd] at hrev; simp at hrev
    | cons y t =>
      rw [hd] at hrev
      simp at hrev
      exact ⟨t, by rw [hrev]⟩
  obtain ⟨jr, hjr⟩ := hjrev
  have hrfind : lastIdx (pre ++ j ++ post).data '}' =
      some (pre.data.length + j.data.length - 1) := by
    unfold lastIdx
    rw [hdata, List.reverse_append, List.reverse_append, List.append_assoc,
        firstIdx_append_of_not_mem _ (fun hm => hpost2 (List.mem_reverse.mp hm)),
        hjr]
    show ((firstIdx ('}' :: (jr ++ pre.data.reverse)) '}').map _).map _ = _
    have hjlen : j.data.reverse.length = j.data.length := List.length_reverse j.data
    rw [hjr] at hjlen
    simp [firstIdx]
    omega
  have hslice : sliceStr (pre ++ j ++ post) pre.data.length
      ((pre.data.length + j.data.length - 1) + 1) = j := by
    unfold sliceStr
    rw [hdata]
    have hdrop : (pre.data ++ (j.data ++ post.data)).drop pre.data.length =
        j.data ++ post.data := List.drop_left pre.data _
    rw [hdrop]
    have harith : pre.data.length + j.data.length - 1 + 1 - pre.data.length =
        j.data.length := by omega
    rw [harith, List.take_left]
  have hwrapped : stageA (pre ++ j ++ post) = Except.ok v := by
    unfold stageA
    simp only [hcond, Bool.false_eq_true, if_false]
    rw [hfind, hrfind]
    have hlt : pre.data.length < pre.data.length + j.data.length - 1 := by omega
    simp only [hlt, if_true, hslice, hparse]
  have hbare : stageA j = Except.ok v := stageA_direct hhead hlast hparse
  unfold extractRecord
  rw [hwrapped, hbare]

/-- Closed witness for C7: the spec's example shape around a concrete
classification object. -/
theorem C7_prose_wrapping_invariant_witness :
    extractRecord ("Here is the result:\n" ++
      "\x7b\"summary\":\"w\",\"is_real_threat\":false,\"action_type\":\"FALSE_POSITIVE\"\x7d" ++
      "\nThanks") =
    extractRecord
      "\x7b\"summary\":\"w\",\"is_real_threat\":false,\"action_type\":\"FALSE_POSITIVE\"\x7d" :=
  C7_prose_wrapping_invariant "Here is the result:\n"
    "\x7b\"summary\":\"w\",\"is_real_threat\":false,\"action_type\":\"FALSE_POSITIVE\"\x7d"
    "\nThanks"
    (Json.obj [("summary", Json.str "w"), ("is_real_threat", Json.bool false),
               ("action_type", Json.str "FALSE_POSITIVE")])
    (by decide) (by decide) (by decide) (by decide)
    ⟨'H', by decide, rfl⟩ rfl rfl rfl

/-- Closed witness for C9 at a concrete malformed braced response. -/
theorem C9_direct_parse_failure_propagates_witness :
    stageA "\x7boops\x7d" = Except.error "JSONDecodeError" ∧
    extractRecord "\x7boops\x7d" = Except.error "JSONDecodeError" ∧
    finalizeInference "us.amazon.nova-lite-v1:0" "t0" (Except.ok "\x7boops\x7d") =
      (bedrockFailureRecord, InferenceMetadata.failure "JSONDecodeError") ∧
    bedrockFailureRecord.summary = Json.str "AI analysis unavailable at this time." ∧
    bedrockFailureRecord.action_type = Json.str "ERROR_BEDROCK_FAILED" :=
  C9_direct_parse_failure_propagates "\x7boops\x7d" "us.amazon.nova-lite-v1:0" "t0"
    rfl rfl rfl

/-- C4: the Request Adapter is total and dispatches on identifier
prefixes in the fixed order claude-3, claude-v2/claude-instant,
titan-text, nova-lite, first match winning; each matched family's
payload carries exactly that family's keys (with the prompt where the
family expects it, e.g. messages[0].content[0].text for claude-3), and
an unrecognized identifier gets the chat-style fallback with an
inferenceConfig block. -/
theorem C4_request_adapter_dispatch (mid p : String) :
    (strStartsWith mid "anthropic.claude-3" = true →
      topKeys (buildBedrockBody mid p) =
        ["anthropic_version", "messages", "max_tokens", "temperature", "top_p"] ∧
      msgContentText (buildBedrockBody mid p) = some (Json.str p)) ∧
    (strStartsWith mid "anthropic.claude-3" = false →
     (strStartsWith mid "anthropic.claude-v2" = true ∨
      strStartsWith mid "anthropic.claude-instant" = true) →
      topKeys (buildBedrockBody mid p) =
        ["prompt", "max_tokens_to_sample", "temperature", "top_p"] ∧
      getKeyD (buildBedrockBody mid p) "prompt" =
        some (Json.str ("\n\nHuman: " ++ p ++ "\n\nAssistant:"))) ∧
    (strStartsWith mid "anthropic.claude-3" = false →
     strStartsWith mid "anthropic.claude-v2" = false →
     strStartsWith mid "anthropic.claude-instant" = false →
     strStartsWith mid "amazon.titan-text" = true →
      topKeys (buildBedrockBody mid p) = ["inputText", "textGenerationConfig"] ∧
      getKeyD (buildBedrockBody mid p) "inputText" = some (Json.str p)) ∧
    (strStartsWith mid "anthropic.claude-3" = false →
     strStartsWith mid "anthropic.claude-v2" = false →
     strStartsWith mid "anthropic.claude-instant" = false →
     strStartsWith mid "amazon.titan-text" = false →
     strStartsWith mid "us.amazon.nova-lite" = true →
      topKeys (buildBedrockBody mid p) = ["messages", "inferenceConfig"] ∧
      msgContentText (buildBedrockBody mid p) = some (Json.str p)) ∧
    (strStartsWith mid "anthropic.claude-3" = false →
     strStartsWith mid "anthropic.claude-v2" = false →
     strStartsWith mid "anthropic.claude-instant" = false →
     strStartsWith mid "amazon.titan-text" = false →
     strStartsWith mid "us.amazon.nova-lite" = false →
      topKeys (buildBedrockBody mid p) = ["messages", "inferenceConfig"] ∧
      msgContentText (buildBedrockBody mid p) = some (Json.str p) ∧
      (getKeyD (buildBedrockBody mid p) "inferenceConfig").isSome = true) := by
  refine ⟨?_, ?_, ?_, ?_, ?_⟩
  · intro h1
    unfold buildBedrockBody
    rw [h1]
    exact ⟨rfl, rfl⟩
  · intro h1 h2
    unfold buildBedrockBody
    rw [h1]
    have hor : (strStartsWith mid "anthropic.claude-v2" ||
        strStartsWith mid "anthropic.claude-instant") = true := by
      rcases h2 with h2 | h2 <;> simp [h2]
    rw [hor]
    exact ⟨rfl, rfl⟩
  · intro h1 h2 h3 h4
    unfold buildBedrockBody
    rw [h1, h2, h3, h4]
    exact ⟨rfl, rfl⟩
  · intro h1 h2 h3 h4 h5
    unfold buildBedrockBody
    rw [h1, h2, h3, h4, h5]
    exact ⟨rfl, rfl⟩
  · intro h1 h2 h3 h4 h5
    unfold buildBedrockBody
    rw [h1, h2, h3, h4, h5]
    exact ⟨rfl, rfl, rfl⟩

/-- Closed witness for C4: one concrete identifier per branch. -/
theorem C4_request_adapter_dispatch_witness :
    (topKeys (buildBedrockBody "anthropic.claude-3-sonnet-20240229-v1:0" "P") =
       ["anthropic_version", "messages", "max_tokens", "temperature", "top_p"] ∧
     msgContentText (buildBedrockBody "anthropic.claude-3-sonnet-20240229-v1:0" "P") =
       some (Json.str "P")) ∧
    (topKeys (buildBedrockBody "anthropic.claude-v2:1" "P") =
       ["prompt", "max_tokens_to_sample", "temperature", "top_p"] ∧
     getKeyD (buildBedrockBody "anthropic.claude-v2:1" "P") "prompt" =
       some (Json.str ("\n\nHuman: " ++ "P" ++ "\n\nAssistant:"))) ∧
    (topKeys (buildBedrockBody "amazon.titan-text-express-v1" "P") =
       ["inputText", "textGenerationConfig"] ∧
     getKeyD (buildBedrockBody "amazon.titan-text-express-v1" "P") "inputText" =
       some (Json.str "P")) ∧
    (topKeys (buildBedrockBody "us.amazon.nova-lite-v1:0" "P") =
       ["messages", "inferenceConfig"] ∧
     msgContentText (buildBedrockBody "us.amazon.nova-lite-v1:0" "P") =
       some (Json.str "P")) ∧
    (topKeys (buildBedrockBody "mistral.mixtral-8x7b-instruct-v0:1" "P") =
       ["messages", "inferenceConfig"] ∧
     msgContentText (buildBedrockBody "mistral.mixtral-8x7b-instruct-v0:1" "P") =
       some (Json.str "P") ∧
     (getKeyD (buildBedrockBody "mistral.mixtral-8x7b-instruct-v0:1" "P")
        "inferenceConfig").isSome = true) :=
  ⟨(C4_request_adapter_dispatch "anthropic.claude-3-sonnet-20240229-v1:0" "P").1 rfl,
   (C4_request_adapter_dispatch "anthropic.claude-v2:1" "P").2.1 rfl (Or.inl rfl),
   (C4_request_adapter_dispatch "amazon.titan-text-express-v1" "P").2.2.1 rfl rfl rfl rfl,
   (C4_request_adapter_dispatch "us.amazon.nova-lite-v1:0" "P").2.2.2.1 rfl rfl rfl rfl rfl,
   (C4_request_adapter_dispatch "mistral.mixtral-8x7b-instruct-v0:1" "P").2.2.2.2
     rfl rfl rfl rfl rfl⟩

/-- C10: the default nova-lite family is requested with
inferenceConfig.maxTokens 150 and temperature 0.7, while every other
branch of the adapter (the three named families and the fallback)
requests 500 maximum tokens at temperature 0.2, so the default model's
generation budget is strictly smaller. -/
theorem C10_nova_budget_smaller (mid p : String) :
    (strStartsWith mid "us.amazon.nova-lite" = true →
      maxTokensOf (buildBedrockBody mid p) = some (Json.num 150 0) ∧
      temperatureOf (buildBedrockBody mid p) = some (Json.num 7 1)) ∧
    (strStartsWith mid "us.amazon.nova-lite" = false →
      maxTokensOf (buildBedrockBody mid p) = some (Json.num 500 0) ∧
      temperatureOf (buildBedrockBody mid p) = some (Json.num 2 1)) ∧
    decVal 150 0 < decVal 500 0 ∧ decVal 7 1 = 0.7 ∧ decVal 2 1 = 0.2 := by
  refine ⟨?_, ?_, ?_, ?_, ?_⟩
  · intro h5
    have e1 : strStartsWith mid "anthropic.claude-3" = false :=
      @strStartsWith_head_ne mid "us.amazon.nova-lite" "anthropic.claude-3"
        'u' 'a' rfl rfl (by decide) h5
    have e2 : strStartsWith mid "anthropic.claude-v2" = false :=
      @strStartsWith_head_ne mid "us.amazon.nova-lite" "anthropic.claude-v2"
        'u' 'a' rfl rfl (by decide) h5
    have e3 : strStartsWith mid "anthropic.claude-instant" = false :=
      @strStartsWith_head_ne mid "us.amazon.nova-lite" "anthropic.claude-instant"
        'u' 'a' rfl rfl (by decide) h5
    have e4 : strStartsWith mid "amazon.titan-text" = false :=
      @strStartsWith_head_ne mid "us.amazon.nova-lite" "amazon.titan-text"
        'u' 'a' rfl rfl (by decide) h5
    unfold buildBedrockBody
    rw [e1, e2, e3, e4, h5]
    exact ⟨rfl, rfl⟩
  · intro h5
    unfold buildBedrockBody
    cases h1 : strStartsWith mid "anthropic.claude-3" with
    | true => exact ⟨rfl, rfl⟩
    | false =>
      cases h2 : strStartsWith mid "anthropic.claude-v2" with
      | true => exact ⟨rfl, rfl⟩
      | false =>
        cases h3 : strStartsWith mid "anthropic.claude-instant" with
        | true => exact ⟨rfl, rfl⟩
        | false =>
          cases h4 : strStartsWith mid "amazon.titan-text" with
          | true => exact ⟨rfl, rfl⟩
          | false => rw [h5]; exact ⟨rfl, rfl⟩
  · norm_num [decVal]
  · norm_num [decVal]
  · norm_num [decVal]

/-- C5 counterexample: on the Stage-A object whose `content` key holds
an empty sequence, the claim's reading (shape 2 unmatched, fall through,
no shape matches, object itself used) disagrees with the code, which
commits to the content branch and raises an IndexError. -/
theorem C5_counterexample :
    stageB (Json.obj [("content", Json.arr [])]) =
      Except.error "IndexError: list index out of range" ∧
    stageBSpec (Json.obj [("content", Json.arr [])]) =
      Json.obj [("content", Json.arr [])] ∧
    stageB (Json.obj [("content", Json.arr [])]) ≠
      Except.ok (stageBSpec (Json.obj [("content", Json.arr [])])) := by
  refine ⟨rfl, rfl, ?_⟩
  intro h
  have h' : Except.error (ε := String) "IndexError: list index out of range" =
      Except.ok (stageBSpec (Json.obj [("content", Json.arr [])])) := h
  exact Except.noConfusion h'

/-- C5 amended: Stage B tries completion, content, results, messages in
order, but a shape among 2-4 matches as soon as its key holds a
sequence, empty or not and whatever its first element looks like; a
matched-but-degenerate shape raises (empty sequence) or parses the
matched inner text via the accessor chain (first element probed for the
text field) instead of falling through, and only when no key matches
is the Stage-A object itself the classification JSON. -/
theorem C5_stageB_dispatch_amended (o : Json) :
    (keyMem o "completion" = true →
      stageB o = pyLoads ((getKeyD o "completion").getD Json.null)) ∧
    (keyMem o "completion" = false → keyList o "content" = some [] →
      stageB o = Except.error "IndexError: list index out of range") ∧
    (∀ x xs, keyMem o "completion" = false → keyList o "content" = some (x :: xs) →
      stageB o = (pyDictGet x "text" (Json.str "") >>= fun t => pyLoads t)) ∧
    (keyMem o "completion" = false → keyList o "content" = none →
      keyList o "results" = some [] →
      stageB o = Except.error "IndexError: list index out of range") ∧
    (∀ x xs, keyMem o "completion" = false → keyList o "content" = none →
      keyList o "results" = some (x :: xs) →
      stageB o = (pyDictGet x "outputText" (Json.str "") >>= fun t => pyLoads t)) ∧
    (keyMem o "completion" = false → keyList o "content" = none →
      keyList o "results" = none → keyList o "messages" = some [] →
      stageB o = Except.error "IndexError: list index out of range") ∧
    (∀ m ms, keyMem o "completion" = false → keyList o "content" = none →
      keyList o "results" = none → keyList o "messages" = some (m :: ms) →
      stageB o = (pyDictGet m "content" (Json.arr [Json.obj []]) >>= fun cv =>
        pyIndex0 cv >>= fun c0 =>
        pyDictGet c0 "text" (Json.str "") >>= fun t => pyLoads t)) ∧
    (keyMem o "completion" = false → keyList o "content" = none →
      keyList o "results" = none → keyList o "messages" = none →
      stageB o = Except.ok o) := by
  refine ⟨?_, ?_, ?_, ?_, ?_, ?_, ?_, ?_⟩
  · intro h1
    unfold stageB
    rw [h1]
    rfl
  · intro h1 h2
    unfold stageB
    rw [h1, h2]
    rfl
  · intro x xs h1 h2
    unfold stageB
    rw [h1, h2]
    rfl
  · intro h1 h2 h3
    unfold stageB
    rw [h1, h2, h3]
    rfl
  · intro x xs h1 h2 h3
    unfold stageB
    rw [h1, h2, h3]
    rfl
  · intro h1 h2 h3 h4
    unfold stageB
    rw [h1, h2, h3, h4]
    rfl
  · intro m ms h1 h2 h3 h4
    unfold stageB
    rw [h1, h2, h3, h4]
    rfl
  · intro h1 h2 h3 h4
    unfold stageB
    rw [h1, h2, h3, h4]
    rfl

/-- Closed witness for C5 amended: the completion branch, the
empty-results branch, the empty-messages branch, the committed
non-empty-messages accessor chain and the no-match fall-through at
concrete objects. -/
theorem C5_stageB_dispatch_amended_witness :
    stageB (Json.obj [("completion", Json.str "3")]) =
      pyLoads ((getKeyD (Json.obj [("completion", Json.str "3")]) "completion").getD
        Json.null) ∧
    stageB (Json.obj [("results", Json.arr [])]) =
      Except.error "IndexError: list index out of range" ∧
    stageB (Json.obj [("messages", Json.arr [])]) =
      Except.error "IndexError: list index out of range" ∧
    stageB (Json.obj [("messages", Json.arr
        [Json.obj [("content", Json.arr [Json.obj [("text", Json.str "1")]])]])]) =
      (pyDictGet (Json.obj [("content", Json.arr [Json.obj [("text", Json.str "1")]])])
          "content" (Json.arr [Json.obj []]) >>= fun cv =>
        pyIndex0 cv >>= fun c0 =>
        pyDictGet c0 "text" (Json.str "") >>= fun t => pyLoads t) ∧
    stageB (Json.obj [("summary", Json.str "s")]) =
      Except.ok (Json.obj [("summary", Json.str "s")]) := by
  exact ⟨(C5_stageB_dispatch_amended (Json.obj [("completion", Json.str "3")])).1 rfl,
    (C5_stageB_dispatch_amended
      (Json.obj [("results", Json.arr [])])).2.2.2.1 rfl rfl rfl,
    (C5_stageB_dispatch_amended
      (Json.obj [("messages", Json.arr [])])).2.2.2.2.2.1 rfl rfl rfl rfl,
    (C5_stageB_dispatch_amended
      (Json.obj [("messages", Json.arr
        [Json.obj [("content", Json.arr [Json.obj [("text", Json.str "1")]])]])])).2.2.2.2.2.2.1
      (Json.obj [("content", Json.arr [Json.obj [("text", Json.str "1")]])]) []
      rfl rfl rfl rfl,
    (C5_stageB_dispatch_amended
      (Json.obj [("summary", Json.str "s")])).2.2.2.2.2.2.2 rfl rfl rfl rfl⟩

/-- C2 counterexample: a Stage-A object matching the Claude-3 shape
with non-JSON inner text does not degrade to the all-default UNKNOWN
record -- the inner parse failure escapes the extraction stage, and the
finalized record carries the inference-failure defaults instead. -/
theorem C2_counterexample :
    stageB (Json.obj [("content", Json.arr [Json.obj [("text", Json.str "oops")]])]) =
      Except.error "JSONDecodeError" ∧
    extractRecord "\x7b\"content\": [\x7b\"text\": \"oops\"\x7d]\x7d" =
      Except.error "JSONDecodeError" ∧
    (finalizeInference "us.amazon.nova-lite-v1:0" "t0"
        (Except.ok "\x7b\"content\": [\x7b\"text\": \"oops\"\x7d]\x7d")).1.action_type =
      Json.str "ERROR_BEDROCK_FAILED" ∧
    ¬ (Json.str "ERROR_BEDROCK_FAILED" = Json.str "UNKNOWN") ∧
    (finalizeInference "us.amazon.nova-lite-v1:0" "t0"
        (Except.ok "\x7b\"content\": [\x7b\"text\": \"oops\"\x7d]\x7d")).1.summary =
      Json.str "AI analysis unavailable at this time." ∧
    ¬ (Json.str "AI analysis unavailable at this time." =
        Json.str "No AI summary generated.") := by
  refine ⟨rfl, rfl, rfl, ?_, rfl, ?_⟩
  · intro h
    injection h with h'
    exact absurd h' (by decide)
  · intro h
    injection h with h'
    exact absurd h' (by decide)

/-- C2 amended: when a Stage-A object matches one of the four family
shapes but the matched inner text is not valid JSON, the inner parse
failure propagates out of the extraction stage to the per-alert
handler, and the alert is finalized with the inference-failure defaults
(summary "AI analysis unavailable at this time.", threat flag false,
action type ERROR_BEDROCK_FAILED, empty advisory messages) and
error-only metadata, rather than the documented extraction defaults. -/
theorem C2_inner_parse_failure_amended (o : Json) (s raw modelId its : String)
    (hA : stageA raw = Except.ok o)
    (hf : familyInnerText o s)
    (hp : jsonLoads s = none) :
    stageB o = Except.error "JSONDecodeError" ∧
    extractRecord raw = Except.error "JSONDecodeError" ∧
    finalizeInference modelId its (Except.ok raw) =
      (bedrockFailureRecord, InferenceMetadata.failure "JSONDecodeError") := by
  have hB : stageB o = Except.error "JSONDecodeError" := by
    rw [stageB_of_familyInnerText hf]
    show (match jsonLoads s with
      | some v => Except.ok v
      | none => Except.error "JSONDecodeError") = _
    rw [hp]
  have hE : extractRecord raw = Except.error "JSONDecodeError" := by
    unfold extractRecord
    rw [hA]
    show (stageB o >>= fun pc => extractFields pc) = _
    rw [hB]
    rfl
  exact ⟨hB, hE, by simp [finalizeInference, hE]⟩

/-- Closed witness for C2 amended: the legacy-completion envelope with
non-JSON inner text. -/
theorem C2_inner_parse_failure_amended_witness :
    stageB (Json.obj [("completion", Json.str "notjson")]) =
      Except.error "JSONDecodeError" ∧
    extractRecord "\x7b\"completion\": \"notjson\"\x7d" =
      Except.error "JSONDecodeError" ∧
    finalizeInference "us.amazon.nova-lite-v1:0" "t0"
        (Except.ok "\x7b\"completion\": \"notjson\"\x7d") =
      (bedrockFailureRecord, InferenceMetadata.failure "JSONDecodeError") :=
  C2_inner_parse_failure_amended (Json.obj [("completion", Json.str "notjson")])
    "notjson" "\x7b\"completion\": \"notjson\"\x7d" "us.amazon.nova-lite-v1:0" "t0"
    rfl (Or.inl rfl) rfl

/-- Closed witness for C10 at the default model and at a non-default
identifier. -/
theorem C10_nova_budget_smaller_witness :
    (maxTokensOf (buildBedrockBody "us.amazon.nova-lite-v1:0" "P") =
       some (Json.num 150 0) ∧
     temperatureOf (buildBedrockBody "us.amazon.nova-lite-v1:0" "P") =
       some (Json.num 7 1)) ∧
    (maxTokensOf (buildBedrockBody "amazon.titan-text-express-v1" "P") =
       some (Json.num 500 0) ∧
     temperatureOf (buildBedrockBody "amazon.titan-text-express-v1" "P") =
       some (Json.num 2 1)) :=
  ⟨(C10_nova_budget_smaller "us.amazon.nova-lite-v1:0" "P").1 rfl,
   (C10_nova_budget_smaller "amazon.titan-text-express-v1" "P").2.1 rfl⟩

/-- C3 counterexample: with the middle invocation of a three-alert
batch failing, the failed alert's stored action type is the string
ERROR_BEDROCK_FAILED, not the claimed ERROR_INFERENCE_FAILED. -/
theorem C3_counterexample :
    ((lambdaHandler "m" "env" (fun _ => "id") (fun _ => "rt") (fun _ => "it")
        ["\x7b\x7d", "\x7b\x7d", "\x7b\x7d"]
        (fun i => if i = 1 then Except.error "boom" else Except.ok "")
        (fun _ => Except.ok ()) (fun _ => Except.ok ())).stored.map
      (fun it => it.actionType)) =
      [Json.str "UNKNOWN", Json.str "ERROR_BEDROCK_FAILED", Json.str "UNKNOWN"] ∧
    ¬ (Json.str "ERROR_BEDROCK_FAILED" = Json.str "ERROR_INFERENCE_FAILED") := by
  refine ⟨rfl, ?_⟩
  intro h
  injection h with h'
  exact absurd h' (by decide)

/-- C3 amended: an invocation failure for one alert among three yields
a fully-populated record with action type ERROR_BEDROCK_FAILED, the
failure-default summary and error-only metadata; that record is still
persisted and notified, and both other alerts are processed normally --
three stored items, three notifications, three summaries. -/
theorem C3_inference_failure_isolated_amended
    (modelId env : String) (ids rts its : Nat → String)
    (l0 l1 l2 r0 r2 e : String) (kv0 kv1 kv2 : List (String × Json))
    (rec0 rec2 : ClassificationRecord)
    (invokeO : Nat → Except String String)
    (persistO publishO : Nat → Except String Unit)
    (h0 : jsonLoads (pyStrip l0) = some (Json.obj kv0))
    (h1 : jsonLoads (pyStrip l1) = some (Json.obj kv1))
    (h2 : jsonLoads (pyStrip l2) = some (Json.obj kv2))
    (hr0 : extractRecord r0 = Except.ok rec0)
    (hr2 : extractRecord r2 = Except.ok rec2)
    (hi0 : invokeO 0 = Except.ok r0) (hi1 : invokeO 1 = Except.error e)
    (hi2 : invokeO 2 = Except.ok r2)
    (hpe : ∀ i, persistO i = Except.ok ()) (hpu : ∀ i, publishO i = Except.ok ()) :
    (lambdaHandler modelId env ids rts its [l0, l1, l2]
      invokeO persistO publishO).stored.length = 3 ∧
    (lambdaHandler modelId env ids rts its [l0, l1, l2]
      invokeO persistO publishO).sent.length = 3 ∧
    (lambdaHandler modelId env ids rts its [l0, l1, l2]
      invokeO persistO publishO).summaries.length = 3 ∧
    (lambdaHandler modelId env ids rts its [l0, l1, l2]
      invokeO persistO publishO).stored.map (fun it => it.actionType) =
      [rec0.action_type, Json.str "ERROR_BEDROCK_FAILED", rec2.action_type] ∧
    (lambdaHandler modelId env ids rts its [l0, l1, l2]
      invokeO persistO publishO).stored.map (fun it => it.aiSummary) =
      [rec0.summary, Json.str "AI analysis unavailable at this time.", rec2.summary] ∧
    (lambdaHandler modelId env ids rts its [l0, l1, l2]
      invokeO persistO publishO).stored.map (fun it => it.metadata) =
      [InferenceMetadata.success modelId (its 0) r0, InferenceMetadata.failure e,
       InferenceMetadata.success modelId (its 2) r2] := by
  have e1 : (0 : Nat) + 1 = 1 := rfl
  have e2 : (1 : Nat) + 1 = 2 := rfl
  simp only [lambdaHandler, runLines, runSummaries, e1, e2]
  rw [hi0, hi1, hi2, hpe 0, hpe 1, hpe 2, hpu 0, hpu 1, hpu 2,
      processLine_normal h0 hr0, processLine_invoke_failed e h1,
      processLine_normal h2 hr2]
  exact ⟨rfl, rfl, rfl, rfl, rfl, rfl⟩

/-- Closed witness for C3 amended on a concrete three-line batch with
the middle invocation failing. -/
theorem C3_inference_failure_isolated_amended_witness :
    (lambdaHandler "m" "env" (fun _ => "id") (fun _ => "rt") (fun _ => "it")
      ["\x7b\x7d", "\x7b\x7d", "\x7b\x7d"]
      (fun i => if i = 1 then Except.error "boom" else Except.ok "")
      (fun _ => Except.ok ()) (fun _ => Except.ok ())).stored.length = 3 ∧
    (lambdaHandler "m" "env" (fun _ => "id") (fun _ => "rt") (fun _ => "it")
      ["\x7b\x7d", "\x7b\x7d", "\x7b\x7d"]
      (fun i => if i = 1 then Except.error "boom" else Except.ok "")
      (fun _ => Except.ok ()) (fun _ => Except.ok ())).sent.length = 3 ∧
    (lambdaHandler "m" "env" (fun _ => "id") (fun _ => "rt") (fun _ => "it")
      ["\x7b\x7d", "\x7b\x7d", "\x7b\x7d"]
      (fun i => if i = 1 then Except.error "boom" else Except.ok "")
      (fun _ => Except.ok ()) (fun _ => Except.ok ())).summaries.length = 3 ∧
    (lambdaHandler "m" "env" (fun _ => "id") (fun _ => "rt") (fun _ => "it")
      ["\x7b\x7d", "\x7b\x7d", "\x7b\x7d"]
      (fun i => if i = 1 then Except.error "boom" else Except.ok "")
      (fun _ => Except.ok ()) (fun _ => Except.ok ())).stored.map
        (fun it => it.actionType) =
      [defaultRecord.action_type, Json.str "ERROR_BEDROCK_FAILED",
       defaultRecord.action_type] ∧
    (lambdaHandler "m" "env" (fun _ => "id") (fun _ => "rt") (fun _ => "it")
      ["\x7b\x7d", "\x7b\x7d", "\x7b\x7d"]
      (fun i => if i = 1 then Except.error "boom" else Except.ok "")
      (fun _ => Except.ok ()) (fun _ => Except.ok ())).stored.map
        (fun it => it.aiSummary) =
      [defaultRecord.summary, Json.str "AI analysis unavailable at this time.",
       defaultRecord.summary] ∧
    (lambdaHandler "m" "env" (fun _ => "id") (fun _ => "rt") (fun _ => "it")
      ["\x7b\x7d", "\x7b\x7d", "\x7b\x7d"]
      (fun i => if i = 1 then Except.error "boom" else Except.ok "")
      (fun _ => Except.ok ()) (fun _ => Except.ok ())).stored.map
        (fun it => it.metadata) =
      [InferenceMetadata.success "m" "it" "", InferenceMetadata.failure "boom",
       InferenceMetadata.success "m" "it" ""] :=
  C3_inference_failure_isolated_amended "m" "env" (fun _ => "id") (fun _ => "rt")
    (fun _ => "it") "\x7b\x7d" "\x7b\x7d" "\x7b\x7d" "" "" "boom" [] [] []
    defaultRecord defaultRecord
    (fun i => if i = 1 then Except.error "boom" else Except.ok "")
    (fun _ => Except.ok ()) (fun _ => Except.ok ())
    rfl rfl rfl rfl rfl rfl rfl rfl (fun _ => rfl) (fun _ => rfl)

/-- C8: a failed persistence write or notification publish for the
first alert of a two-alert batch propagates out of that alert's
collaborator phase (it is an error, not a finalized summary), is
surfaced to the operator as an error log entry while the alert is
excluded from the success summaries, and the remaining alert is still
fully processed. -/
theorem C8_collaborator_failure_surfaced
    (modelId env : String) (ids rts its : Nat → String)
    (l0 l1 r0 r1 e : String) (kv0 kv1 : List (String × Json))
    (rec0 rec1 : ClassificationRecord)
    (invokeO : Nat → Except String String)
    (persistO publishO : Nat → Except String Unit)
    (h0 : jsonLoads (pyStrip l0) = some (Json.obj kv0))
    (h1 : jsonLoads (pyStrip l1) = some (Json.obj kv1))
    (hr0 : extractRecord r0 = Except.ok rec0)
    (hr1 : extractRecord r1 = Except.ok rec1)
    (hi0 : invokeO 0 = Except.ok r0) (hi1 : invokeO 1 = Except.ok r1)
    (hfail : persistO 0 = Except.error e ∨
      (persistO 0 = Except.ok () ∧ publishO 0 = Except.error e))
    (hp1 : persistO 1 = Except.ok ()) (hq1 : publishO 1 = Except.ok ()) :
    (collabPhase (alertObj (ids 0) (rts 0) kv0) rec0
      (InferenceMetadata.success modelId (its 0) r0) env
      (persistO 0) (publishO 0)).2.2 = Except.error e ∧
    LogEntry.error ("An unexpected error occurred: " ++ e) ∈
      (lambdaHandler modelId env ids rts its [l0, l1]
        invokeO persistO publishO).logs ∧
    (lambdaHandler modelId env ids rts its [l0, l1]
      invokeO persistO publishO).summaries =
      [⟨ids 1, rec1.summary, rec1.action_type, rec1.is_real_threat⟩] ∧
    (lambdaHandler modelId env ids rts its [l0, l1]
      invokeO persistO publishO).statusCode = 200 := by
  have e1 : (0 : Nat) + 1 = 1 := rfl
  rcases hfail with hpe0 | ⟨hpe0, hqe0⟩
  · refine ⟨?_, ?_, ?_, rfl⟩
    · unfold collabPhase
      rw [hpe0]
    · simp only [lambdaHandler, runLines, e1]
      rw [hi0, hi1, hp1, hq1, hpe0,
          processLine_persist_failed e (publishO 0) h0 hr0,
          processLine_normal h1 hr1]
      simp
    · simp only [lambdaHandler, runSummaries, e1]
      rw [hi0, hi1, hp1, hq1, hpe0,
          processLine_persist_failed e (publishO 0) h0 hr0,
          processLine_normal h1 hr1]
      rfl
  · refine ⟨?_, ?_, ?_, rfl⟩
    · unfold collabPhase
      rw [hpe0, hqe0]
    · simp only [lambdaHandler, runLines, e1]
      rw [hi0, hi1, hp1, hq1, hpe0, hqe0,
          processLine_publish_failed e h0 hr0,
          processLine_normal h1 hr1]
      simp
    · simp only [lambdaHandler, runSummaries, e1]
      rw [hi0, hi1, hp1, hq1, hpe0, hqe0,
          processLine_publish_failed e h0 hr0,
          processLine_normal h1 hr1]
      rfl

/-- Closed witness for C8 on a concrete two-line batch whose first
persistence write fails. -/
theorem C8_collaborator_failure_surfaced_witness :
    (collabPhase (alertObj "id" "rt" []) defaultRecord
      (InferenceMetadata.success "m" "it" "") "env"
      (Except.error "ddb down") (Except.ok ())).2.2 =
        Except.error "ddb down" ∧
    LogEntry.error ("An unexpected error occurred: " ++ "ddb down") ∈
      (lambdaHandler "m" "env" (fun _ => "id") (fun _ => "rt") (fun _ => "it")
        ["\x7b\x7d", "\x7b\x7d"] (fun _ => Except.ok "")
        (fun i => if i = 0 then Except.error "ddb down" else Except.ok ())
        (fun _ => Except.ok ())).logs ∧
    (lambdaHandler "m" "env" (fun _ => "id") (fun _ => "rt") (fun _ => "it")
      ["\x7b\x7d", "\x7b\x7d"] (fun _ => Except.ok "")
      (fun i => if i = 0 then Except.error "ddb down" else Except.ok ())
      (fun _ => Except.ok ())).summaries =
      [⟨"id", defaultRecord.summary, defaultRecord.action_type,
        defaultRecord.is_real_threat⟩] ∧
    (lambdaHandler "m" "env" (fun _ => "id") (fun _ => "rt") (fun _ => "it")
      ["\x7b\x7d", "\x7b\x7d"] (fun _ => Except.ok "")
      (fun i => if i = 0 then Except.error "ddb down" else Except.ok ())
      (fun _ => Except.ok ())).statusCode = 200 :=
  C8_collaborator_failure_surfaced "m" "env" (fun _ => "id") (fun _ => "rt")
    (fun _ => "it") "\x7b\x7d" "\x7b\x7d" "" "" "ddb down" [] []
    defaultRecord defaultRecord (fun _ => Except.ok "")
    (fun i => if i = 0 then Except.error "ddb down" else Except.ok ())
    (fun _ => Except.ok ())
    rfl rfl rfl rfl rfl rfl (Or.inl rfl) rfl rfl

end UASO
